import Mathlib

/-!
Shallow embedding of `services/processor/processor/ftrack_server.py`
(class `FtrackServer`): the connection lifecycle manager, handler loader,
handler registrar and dispatch wait loop of the processor service.

Modelling conventions:
* Python exceptions are modelled with an explicit `Except`-style result
  carried in `ProcResult`; the mutated object state at the moment an
  exception escapes is kept alongside.
* Machine effects (log lines, event-hub calls, handler invocations) are
  recorded as an `Action` trace in program order.
* Time in the connection poll loop advances in deciseconds (the code
  sleeps 0.1 s per iteration); the background auto-connect thread of the
  session is modelled by a function `hubConn : Nat → Bool` giving the
  event hub's `connected` status at each tick.
* The spec's abstract server states (Stopped / Connecting / Running) are
  recorded as phase-labelled snapshots of the object state: `Connecting`
  when `run_server` begins waiting for a connection, `Running` at the
  point the connection is established and stored on the server.
-/

namespace FtrackProc

/-- One piece of a path template string: literal text or a `\x7bVAR\x7d`
placeholder that `str.format(**os.environ)` would substitute. -/
inductive TplPart
  | lit (s : String)
  | var (v : String)
deriving DecidableEq, Repr

/-- A handler path template, as passed to `FtrackServer`. -/
abbrev Template := List TplPart

/-- Lookup of a variable in the process environment (`os.environ`). -/
def lookupEnv (env : List (String × String)) (v : String) : Option String :=
  (env.find? (fun p => p.1 == v)).map Prod.snd

/-- Python `path.format(**environ)`: succeeds with the substituted string
only when every placeholder resolves; otherwise raises (modelled as
`Except.error` naming the first unresolvable variable, Python KeyError). -/
def pyFormat (env : List (String × String)) : Template → Except String String
  | [] => .ok ""
  | .lit s :: rest => (pyFormat env rest).map (fun r => s ++ r)
  | .var v :: rest =>
      match lookupEnv env v with
      | none => .error v
      | some val => (pyFormat env rest).map (fun r => val ++ r)

/-- The raw (unsubstituted) template string, with placeholders rendered
back in brace syntax. -/
def rawPath : Template → String
  | [] => ""
  | .lit s :: rest => s ++ rawPath rest
  | .var v :: rest => "\x7b" ++ v ++ "\x7d" ++ rawPath rest

/-- The `try: path = path.format(**os.environ) except BaseException: pass`
step of `set_files`: on any formatting failure the original raw template
string is kept. -/
def tryFormat (env : List (String × String)) (t : Template) : String :=
  match pyFormat env t with
  | .ok s => s
  | .error _ => rawPath t

/-- What kind of Python value a module attribute is, to the precision that
`isinstance(attr, types.FunctionType)` distinguishes. Only `pyFunction`
(a plain `def`-created function) is a `types.FunctionType`; classes,
callable instances, builtins and functools fraction applications are
callable but not of that type. -/
inductive AttrKind
  | pyFunction
  | pyClass
  | callableInstance
  | builtinFn
  | fractionApplication
  | otherValue
deriving DecidableEq, Repr

/-- `isinstance(attr, types.FunctionType)`. -/
def AttrKind.isFunctionType : AttrKind → Bool
  | .pyFunction => true
  | _ => false

/-- Whether the value is callable at all (`callable(attr)`). -/
def AttrKind.isCallable : AttrKind → Bool
  | .otherValue => false
  | _ => true

/-- A module attribute: its kind and, when it is invoked as a register
function, whether the invocation raises an `Exception`. -/
structure Attr where
  kind : AttrKind
  raisesOnRegister : Bool
deriving DecidableEq, Repr

/-- A successfully loaded Python module: its `__dict__` as an ordered
association list of attribute names to values. -/
structure Module where
  attrs : List (String × Attr)
deriving DecidableEq, Repr

/-- The entry-point extraction loop of `set_files`: the first attribute
whose name is `register` and which is a plain function object. -/
def findRegister (m : Module) : Option Attr :=
  (m.attrs.find? (fun p => p.1 == "register" && p.2.kind.isFunctionType)).map
    Prod.snd

/-- An `ftrack_api` session as far as `FtrackServer` observes it:
whether `_auto_connect_event_hub_thread` is set, the optional
`request_timeout` attribute (seconds), and the event hub's current
`connected` status. -/
structure Session where
  sid : Nat
  autoConnectThread : Bool
  requestTimeout : Option Nat
  connected : Bool
deriving DecidableEq, Repr

/-- The mutable attributes of an `FtrackServer` instance. -/
structure ServerState where
  stopped : Bool
  is_running : Bool
  handler_paths : List Template
  session : Option Session
deriving DecidableEq, Repr

/-- `FtrackServer.__init__(handler_paths)`. -/
def initialServer (paths : List Template) : ServerState :=
  { stopped := true, is_running := false, handler_paths := paths,
    session := none }

/-- Observable effects of the server methods, in program order. -/
inductive Action
  | stopSessionCalled
  | hubDisconnect
  | sessionClose
  | runServerCalled
  | waitingInfo
  | connectingInfo
  | hubConnectCall
  | loadCrashWarning (filepath : String)
  | missingRegisterWarning (filepath : String)
  | noRegisterWarning (joined : String)
  | invoke (filepath : String) (sess : Session)
  | registerFailedWarning (filepath : String)
  | noPathsWarning
  | registrationFinishedInfo
  | hubWait
deriving DecidableEq, Repr

/-- Python exceptions that can escape the modelled methods. -/
inductive PyError
  | attributeError
  | connectionTimeout (timeout : Nat)
deriving DecidableEq, Repr

/-- The spec's abstract server state labels. -/
inductive Phase
  | stoppedPh
  | connectingPh
  | runningPh
deriving DecidableEq, Repr

/-- Whether a method returned normally or let an exception escape. -/
inductive Outcome
  | normal
  | raised (e : PyError)
deriving DecidableEq, Repr

/-- Result of running a server method: the outcome (normal return or an
escaping exception), the object state afterwards, the effect trace, and
phase-labelled snapshots of the object state at the spec's abstract
state-machine transition points. -/
structure ProcResult where
  result : Outcome
  state : ServerState
  trace : List Action
  snapshots : List (Phase × ServerState)
deriving DecidableEq, Repr

/-- External collaborators of the server: the process environment, the
module loader `modules_from_path` (returning loaded `(filepath, module)`
pairs and crashed filepaths), the session constructed by
`ftrack_api.Session(auto_connect_event_hub=True)` when none is supplied,
and the background auto-connect thread's progress. -/
structure Cfg where
  env : List (String × String)
  mfp : String → List (String × Module) × List String
  newSession : Session
  hubConn : Nat → Bool

/-- `FtrackServer.stop_session`. -/
def stop_session (s : ServerState) : ProcResult :=
  let s1 := { s with stopped := true }
  match s1.session with
  | none =>
      { result := .raised .attributeError, state := s1,
        trace := [.stopSessionCalled], snapshots := [] }
  | some sess =>
      { result := .normal
        state := { s1 with session := none }
        trace := .stopSessionCalled ::
          ((if sess.connected then [Action.hubDisconnect] else []) ++
            [Action.sessionClose])
        snapshots := [] }

/-- `modules_from_path` applied to one formatted path. -/
def loadPath (cfg : Cfg) (t : Template) : List (String × Module) × List String :=
  cfg.mfp (tryFormat cfg.env t)

/-- The `(filepath, register_function)` pairs collected from the loaded
modules of one path. -/
def collectEntries (mods : List (String × Module)) : List (String × Attr) :=
  mods.filterMap (fun p => (findRegister p.2).map (fun a => (p.1, a)))

/-- Warnings for loaded modules that lack a usable `register` function. -/
def missingActions (mods : List (String × Module)) : List Action :=
  (mods.filter (fun p => (findRegister p.2).isNone)).map
    (fun p => Action.missingRegisterWarning p.1)

/-- All register functions collected across the given paths, in discovery
order (`register_functions` in `set_files`). -/
def entryPoints (cfg : Cfg) (paths : List Template) : List (String × Attr) :=
  paths.flatMap (fun t => collectEntries (loadPath cfg t).1)

/-- The warnings emitted while iterating the paths: crash warnings for
files `modules_from_path` failed on, then missing-register warnings, per
path in order. -/
def loadActions (cfg : Cfg) (paths : List Template) : List Action :=
  paths.flatMap (fun t =>
    (loadPath cfg t).2.map Action.loadCrashWarning ++
      missingActions (loadPath cfg t).1)

/-- The final loop of `set_files`: each register function is invoked with
the server's session; a raising invocation is caught and logged with its
file path. -/
def invokeActions (sess : Session) (entries : List (String × Attr)) :
    List Action :=
  entries.flatMap (fun p =>
    Action.invoke p.1 sess ::
      (if p.2.raisesOnRegister then [Action.registerFailedWarning p.1]
       else []))

/-- The `"| ".join(paths)` of the original template strings. -/
def joinedPaths (paths : List Template) : String :=
  String.intercalate "| " (paths.map rawPath)

/-- `FtrackServer.set_files(paths)`, run with `self.session = sess`:
returns the effect trace (the method does not change the tracked object
attributes). -/
def set_files (cfg : Cfg) (sess : Session) (paths : List Template) :
    List Action :=
  loadActions cfg paths ++
    (if (entryPoints cfg paths).isEmpty then
      [Action.noRegisterWarning (joinedPaths paths)]
     else []) ++
    invokeActions sess (entryPoints cfg paths)

/-- The poll loop `while not session.event_hub.connected`: tick `k` is the
number of elapsed deciseconds; `limit` is `10 * timeout`. Returns the tick
at which the hub reported connected, or `none` when the strict elapsed-time
check `time.time() - started > timeout` fires first. -/
def pollHub (hubConn : Nat → Bool) (limit : Nat) (k : Nat) : Option Nat :=
  if hubConn k then some k
  else if k > limit then none
  else pollHub hubConn limit (k + 1)
termination_by limit + 1 - k
decreasing_by omega

/-- The tail of `run_server` from the point the event hub is connected:
`self.session = session`, the optional load/registration block with its
empty-paths early return, and the dispatch wait. -/
def afterConnect (cfg : Cfg) (s0 : ServerState) (sess : Session)
    (load_files : Bool) (tr : List Action)
    (snaps : List (Phase × ServerState)) : ProcResult :=
  let s1 := { s0 with session := some sess }
  let snaps1 := snaps ++ [(Phase.runningPh, s1)]
  if load_files then
    if s1.handler_paths.isEmpty then
      { result := .normal, state := { s1 with is_running := false },
        trace := tr ++ [Action.noPathsWarning], snapshots := snaps1 }
    else
      { result := .normal, state := { s1 with is_running := false },
        trace := tr ++ set_files cfg sess s1.handler_paths ++
          [Action.registrationFinishedInfo, Action.hubWait],
        snapshots := snaps1 }
  else
    { result := .normal, state := { s1 with is_running := false },
      trace := tr ++ [Action.hubWait], snapshots := snaps1 }

/-- `FtrackServer.run_server(session=None, load_files=True)`. -/
def run_server (cfg : Cfg) (s : ServerState) (sessionArg : Option Session)
    (load_files : Bool) : ProcResult :=
  let s0 := { s with stopped := false, is_running := true }
  let sess := sessionArg.getD cfg.newSession
  let snap0 := [(Phase.connectingPh, s0)]
  if sess.autoConnectThread then
    let timeout := sess.requestTimeout.getD 60
    match pollHub cfg.hubConn (10 * timeout) 0 with
    | none =>
        { result := .raised (.connectionTimeout timeout), state := s0,
          trace := [.runServerCalled, .waitingInfo], snapshots := snap0 }
    | some _ =>
        afterConnect cfg s0 { sess with connected := true } load_files
          [.runServerCalled, .waitingInfo] snap0
  else if !sess.connected then
    afterConnect cfg s0 { sess with connected := true } load_files
      [.runServerCalled, .connectingInfo, .hubConnectCall] snap0
  else
    afterConnect cfg s0 sess load_files [.runServerCalled] snap0

/-- `FtrackServer.set_handler_paths(paths)`. -/
def set_handler_paths (cfg : Cfg) (s : ServerState) (paths : List Template) :
    ProcResult :=
  let s1 := { s with handler_paths := paths }
  if s1.is_running then
    let r := stop_session s1
    match r.result with
    | .raised _ => r
    | .normal =>
        let r2 := run_server cfg r.state none true
        { result := r2.result, state := r2.state,
          trace := r.trace ++ r2.trace,
          snapshots := r.snapshots ++ r2.snapshots }
  else if !s1.stopped then
    run_server cfg s1 none true
  else
    { result := .normal, state := s1, trace := [], snapshots := [] }

/-- Observer: the filepath of a handler-invocation action. -/
def invokeName : Action → Option String
  | .invoke fp _ => some fp
  | _ => none

/-- Observer: the filepath of a load-failure warning. -/
def crashName : Action → Option String
  | .loadCrashWarning fp => some fp
  | _ => none

/-- The connection-establishment step of `run_server` succeeds for this
session: either no auto-connect thread is running (the synchronous path),
or the background thread reports connected before the timeout check
fires. -/
def connectsImmediately (cfg : Cfg) (sess : Session) : Prop :=
  sess.autoConnectThread = false ∨
    (pollHub cfg.hubConn (10 * (sess.requestTimeout.getD 60)) 0).isSome = true

/-- Fixture: a pre-supplied session, already connected, no auto-connect
thread. -/
def sess0 : Session :=
  { sid := 0, autoConnectThread := false, requestTimeout := none,
    connected := true }

/-- Fixture: a session whose auto-connect thread is active and which
carries a `request_timeout` of 2 seconds. -/
def sessAuto : Session :=
  { sid := 1, autoConnectThread := true, requestTimeout := some 2,
    connected := false }

/-- Fixture: environment and collaborators where no path loads any
module and the hub background thread never connects. -/
def cfg0 : Cfg :=
  { env := [("HOME", "/root")], mfp := fun _ => ([], []),
    newSession := sess0, hubConn := fun _ => false }

/-- Fixture: a template with an unresolvable placeholder. -/
def t0 : Template := [.lit "/handlers/", .var "MISSING"]

/-- Fixture: a register function that succeeds. -/
def regAttr : Attr := { kind := .pyFunction, raisesOnRegister := false }

/-- Fixture: a register function whose invocation raises. -/
def badAttr : Attr := { kind := .pyFunction, raisesOnRegister := true }

/-- Fixture: a class named `register` (callable, not a FunctionType). -/
def clsAttr : Attr := { kind := .pyClass, raisesOnRegister := false }

/-- Fixture: a module with a well-formed register function. -/
def mGood : Module := { attrs := [("register", regAttr)] }

/-- Fixture: a module whose register function raises when invoked. -/
def mBad : Module := { attrs := [("register", badAttr)] }

/-- Fixture: a module whose `register` attribute is a class. -/
def mClassReg : Module := { attrs := [("register", clsAttr)] }

/-- Fixture: a module with a function under a different name only. -/
def mNoReg : Module := { attrs := [("helper", regAttr)] }

/-- Fixture: template naming the `/plugins` directory. -/
def tPlugins : Template := [.lit "/plugins"]

/-- Fixture: template naming the `/cls` directory. -/
def tCls : Template := [.lit "/cls"]

/-- Fixture: template naming the `/mix` directory. -/
def tMix : Template := [.lit "/mix"]

/-- Fixture: template naming an old handler directory. -/
def tOld : Template := [.lit "/old"]

/-- Fixture: collaborators where `/plugins` holds a raising and a good
register module. -/
def cfg1 : Cfg :=
  { env := [],
    mfp := fun p =>
      if p = "/plugins" then
        ([("/plugins/a.py", mBad), ("/plugins/b.py", mGood)], [])
      else ([], []),
    newSession := sess0, hubConn := fun _ => false }

/-- Fixture: collaborators where `/cls` holds a module whose `register`
is a class. -/
def cfg2 : Cfg :=
  { env := [],
    mfp := fun p =>
      if p = "/cls" then ([("/cls/c.py", mClassReg)], []) else ([], []),
    newSession := sess0, hubConn := fun _ => false }

/-- Fixture: collaborators where `/mix` holds one good module, one module
without a register function, and one file that crashed on load. -/
def cfg3 : Cfg :=
  { env := [],
    mfp := fun p =>
      if p = "/mix" then
        ([("/mix/good.py", mGood), ("/mix/noreg.py", mNoReg)],
          ["/mix/broken.py"])
      else ([], []),
    newSession := sess0, hubConn := fun _ => false }

/-- Fixture: a server holding a connected session. -/
def srvHeld : ServerState :=
  { stopped := false, is_running := true, handler_paths := [],
    session := some sess0 }

/-- Fixture: a running server with old handler paths. -/
def srvRunning : ServerState :=
  { stopped := false, is_running := true, handler_paths := [tOld],
    session := some sess0 }

/-- Fixture: a started-but-not-running server (stopped and running flags
both false). -/
def srvMid : ServerState :=
  { stopped := false, is_running := false, handler_paths := [tOld],
    session := none }

/-- Fixture: a stopped server with old handler paths. -/
def srvStopped : ServerState := initialServer [tOld]

/-! ## Helper lemmas -/

theorem pyFormat_error_of_unresolved (env : List (String × String)) :
    ∀ t : Template, ∀ v : String, TplPart.var v ∈ t →
      lookupEnv env v = none → ∃ e, pyFormat env t = .error e := by
  intro t
  induction t with
  | nil => intro v hv _; simp at hv
  | cons p rest ih =>
    intro v hv henv
    cases p with
    | lit s =>
      have hv2 : TplPart.var v ∈ rest := by
        rcases List.mem_cons.mp hv with h1 | h2
        · exact absurd h1 (by simp)
        · exact h2
      obtain ⟨e, he⟩ := ih v hv2 henv
      exact ⟨e, by simp [pyFormat, he, Except.map]⟩
    | var w =>
      rcases hval : lookupEnv env w with _ | val
      · exact ⟨w, by simp [pyFormat, hval]⟩
      · have hv2 : TplPart.var v ∈ rest := by
          rcases List.mem_cons.mp hv with h1 | h2
          · injection h1 with hvw
            subst hvw
            rw [henv] at hval
            exact absurd hval (by simp)
          · exact h2
        obtain ⟨e, he⟩ := ih v hv2 henv
        exact ⟨e, by simp [pyFormat, hval, he, Except.map]⟩

theorem invokeName_eq_none_of_mem_loadActions (cfg : Cfg)
    (paths : List Template) :
    ∀ a ∈ loadActions cfg paths, invokeName a = none := by
  intro a ha
  rw [loadActions, List.mem_flatMap] at ha
  obtain ⟨t, _, hmem⟩ := ha
  rcases List.mem_append.mp hmem with h | h
  · rw [List.mem_map] at h
    obtain ⟨fp, _, rfl⟩ := h
    rfl
  · rw [missingActions, List.mem_map] at h
    obtain ⟨p, _, rfl⟩ := h
    rfl

theorem filterMap_invokeName_loadActions (cfg : Cfg)
    (paths : List Template) :
    (loadActions cfg paths).filterMap invokeName = [] :=
  List.filterMap_eq_nil_iff.mpr (invokeName_eq_none_of_mem_loadActions cfg paths)

theorem filterMap_invokeName_invokeActions (sess : Session) :
    ∀ entries : List (String × Attr),
      (invokeActions sess entries).filterMap invokeName =
        entries.map Prod.fst := by
  intro entries
  induction entries with
  | nil => rfl
  | cons p rest ih =>
    cases hr : p.2.raisesOnRegister <;>
      simp [invokeActions, List.flatMap_cons, List.filterMap_append,
        List.filterMap_cons, invokeName, hr] <;>
      simpa [invokeActions] using ih

theorem set_files_filterMap_invokeName (cfg : Cfg) (sess : Session)
    (paths : List Template) :
    (set_files cfg sess paths).filterMap invokeName =
      (entryPoints cfg paths).map Prod.fst := by
  rw [set_files, List.filterMap_append, List.filterMap_append,
    filterMap_invokeName_loadActions, filterMap_invokeName_invokeActions]
  cases he : (entryPoints cfg paths).isEmpty <;> simp [invokeName]

theorem invoke_mem_invokeActions (sess : Session)
    (entries : List (String × Attr)) (fp : String) (a : Attr)
    (h : (fp, a) ∈ entries) :
    Action.invoke fp sess ∈ invokeActions sess entries := by
  rw [invokeActions, List.mem_flatMap]
  exact ⟨(fp, a), h, by simp⟩

theorem warn_mem_invokeActions (sess : Session)
    (entries : List (String × Attr)) (fp : String) (a : Attr)
    (h : (fp, a) ∈ entries) (hr : a.raisesOnRegister = true) :
    Action.registerFailedWarning fp ∈ invokeActions sess entries := by
  rw [invokeActions, List.mem_flatMap]
  exact ⟨(fp, a), h, by simp [hr]⟩

/-! ## Claim theorems: loader and registrar -/

/-- Claim C4: substituting environment placeholders in a handler path
template never raises; when a placeholder is unresolvable the loader
falls back to the raw template string and loads from that raw value. -/
theorem C4_format_fallback (cfg : Cfg) (t : Template) (v : String)
    (hv : TplPart.var v ∈ t) (henv : lookupEnv cfg.env v = none) :
    tryFormat cfg.env t = rawPath t ∧
    loadPath cfg t = cfg.mfp (rawPath t) := by
  obtain ⟨e, he⟩ := pyFormat_error_of_unresolved cfg.env t v hv henv
  refine ⟨?_, ?_⟩
  · rw [tryFormat, he]
  · rw [loadPath, tryFormat, he]

theorem C4_format_fallback_witness :
    TplPart.var "MISSING" ∈ t0 ∧ lookupEnv cfg0.env "MISSING" = none ∧
    (tryFormat cfg0.env t0 = rawPath t0 ∧
      loadPath cfg0 t0 = cfg0.mfp (rawPath t0)) :=
  ⟨by decide, by decide,
    C4_format_fallback cfg0 t0 "MISSING" (by decide) (by decide)⟩

/-- Claim C6: `stop_session`, called while the server holds a session,
returns normally, sets `stopped`, disconnects the event hub exactly when
it is connected, closes the session and releases the handle. -/
theorem C6_stop_session (s : ServerState) (sess : Session)
    (h : s.session = some sess) :
    (stop_session s).result = .normal ∧
    (stop_session s).state.stopped = true ∧
    (stop_session s).state.session = none ∧
    (Action.hubDisconnect ∈ (stop_session s).trace ↔
      sess.connected = true) ∧
    Action.sessionClose ∈ (stop_session s).trace := by
  cases hc : sess.connected <;> simp [stop_session, h, hc]

theorem C6_stop_session_witness :
    srvHeld.session = some sess0 ∧
    ((stop_session srvHeld).result = .normal ∧
      (stop_session srvHeld).state.stopped = true ∧
      (stop_session srvHeld).state.session = none ∧
      (Action.hubDisconnect ∈ (stop_session srvHeld).trace ↔
        sess0.connected = true) ∧
      Action.sessionClose ∈ (stop_session srvHeld).trace) :=
  ⟨rfl, C6_stop_session srvHeld sess0 rfl⟩

/-- Claim C2: the registration loop of `set_files` invokes every resolved
entry point with the session, in discovery order, and a raising
invocation is caught and logged with its file path without preventing
later invocations. -/
theorem C2_registration_isolated (cfg : Cfg) (sess : Session)
    (paths : List Template) :
    (set_files cfg sess paths).filterMap invokeName =
      (entryPoints cfg paths).map Prod.fst ∧
    (∀ fp a, (fp, a) ∈ entryPoints cfg paths →
      Action.invoke fp sess ∈ set_files cfg sess paths) ∧
    (∀ fp a, (fp, a) ∈ entryPoints cfg paths → a.raisesOnRegister = true →
      Action.registerFailedWarning fp ∈ set_files cfg sess paths) := by
  refine ⟨set_files_filterMap_invokeName cfg sess paths, ?_, ?_⟩
  · intro fp a h
    rw [set_files]
    exact List.mem_append_right _ (invoke_mem_invokeActions sess _ fp a h)
  · intro fp a h hr
    rw [set_files]
    exact List.mem_append_right _ (warn_mem_invokeActions sess _ fp a h hr)

theorem C2_registration_isolated_witness :
    ("/plugins/a.py", badAttr) ∈ entryPoints cfg1 [tPlugins] ∧
    ("/plugins/b.py", regAttr) ∈ entryPoints cfg1 [tPlugins] ∧
    badAttr.raisesOnRegister = true ∧
    Action.invoke "/plugins/b.py" sess0 ∈ set_files cfg1 sess0 [tPlugins] ∧
    Action.registerFailedWarning "/plugins/a.py" ∈
      set_files cfg1 sess0 [tPlugins] := by
  refine ⟨by decide, by decide, by decide, ?_, ?_⟩
  · exact (C2_registration_isolated cfg1 sess0 [tPlugins]).2.1
      "/plugins/b.py" regAttr (by decide)
  · exact (C2_registration_isolated cfg1 sess0 [tPlugins]).2.2
      "/plugins/a.py" badAttr (by decide) (by decide)

theorem pollHub_none_aux (hc : Nat → Bool) (limit : Nat)
    (h : ∀ t2, hc t2 = false) :
    ∀ d k, limit + 1 - k ≤ d → pollHub hc limit k = none := by
  intro d
  induction d with
  | zero =>
    intro k hk
    unfold pollHub
    simp [h]
    omega
  | succ d ih =>
    intro k hk
    unfold pollHub
    simp [h]
    intro hkl
    exact ih (k + 1) (by omega)

theorem pollHub_none (hc : Nat → Bool) (limit : Nat)
    (h : ∀ t2, hc t2 = false) (k : Nat) : pollHub hc limit k = none :=
  pollHub_none_aux hc limit h (limit + 1 - k) k le_rfl

theorem afterConnect_empty (cfg : Cfg) (s0 : ServerState) (sess : Session)
    (tr : List Action) (snaps : List (Phase × ServerState))
    (hp : s0.handler_paths = []) :
    afterConnect cfg s0 sess true tr snaps =
      { result := .normal,
        state := { s0 with session := some sess, is_running := false },
        trace := tr ++ [Action.noPathsWarning],
        snapshots :=
          snaps ++ [(Phase.runningPh, { s0 with session := some sess })] } := by
  rw [afterConnect]
  simp [hp]

/-! ## Claim theorems: connection lifecycle -/

/-- Claim C1: when the session's auto-connect thread is active and the
event hub never reports connected, `run_server` raises a
connection-timeout error carrying the session's own timeout setting
(60 seconds when absent), and no snapshot of the run is in the Running
state. -/
theorem C1_connection_timeout (cfg : Cfg) (s : ServerState)
    (sess : Session) (lf : Bool)
    (hauto : sess.autoConnectThread = true)
    (hnever : ∀ t2, cfg.hubConn t2 = false) :
    (run_server cfg s (some sess) lf).result =
      .raised (.connectionTimeout (sess.requestTimeout.getD 60)) ∧
    ∀ st, (Phase.runningPh, st) ∉ (run_server cfg s (some sess) lf).snapshots := by
  have hpoll :=
    pollHub_none cfg.hubConn (10 * (sess.requestTimeout.getD 60)) hnever 0
  rw [run_server]
  simp [hauto, hpoll]

theorem C1_connection_timeout_witness :
    sessAuto.autoConnectThread = true ∧
    (∀ t2, cfg0.hubConn t2 = false) ∧
    (run_server cfg0 (initialServer []) (some sessAuto) true).result =
      .raised (.connectionTimeout 2) := by
  refine ⟨rfl, fun _ => rfl, ?_⟩
  exact (C1_connection_timeout cfg0 (initialServer []) sessAuto true rfl
    (fun _ => rfl)).1

/-- Claim C7: starting with `load_files` enabled while zero handler paths
are configured returns normally (no exception), logs the warning, leaves
the running flag false on return, never reaches the dispatch wait, and
invokes no handler. -/
theorem C7_empty_paths_abort (cfg : Cfg) (s : ServerState) (sess : Session)
    (hpaths : s.handler_paths = [])
    (hconn : connectsImmediately cfg sess) :
    (run_server cfg s (some sess) true).result = .normal ∧
    Action.noPathsWarning ∈ (run_server cfg s (some sess) true).trace ∧
    (run_server cfg s (some sess) true).state.is_running = false ∧
    Action.hubWait ∉ (run_server cfg s (some sess) true).trace ∧
    ∀ fp sess2,
      Action.invoke fp sess2 ∉ (run_server cfg s (some sess) true).trace := by
  rcases hconn with hsync | hpol
  · rw [run_server]
    cases hc : sess.connected <;>
      simp [hsync, hc, afterConnect_empty, hpaths]
  · obtain ⟨k, hk⟩ := Option.isSome_iff_exists.mp hpol
    cases hauto : sess.autoConnectThread
    · rw [run_server]
      cases hc : sess.connected <;>
        simp [hauto, hc, afterConnect_empty, hpaths]
    · rw [run_server]
      simp [hauto, hk, afterConnect_empty, hpaths]

theorem C7_empty_paths_abort_witness :
    (initialServer []).handler_paths = [] ∧
    connectsImmediately cfg0 sess0 ∧
    ((run_server cfg0 (initialServer []) (some sess0) true).result =
        .normal ∧
      Action.noPathsWarning ∈
        (run_server cfg0 (initialServer []) (some sess0) true).trace ∧
      (run_server cfg0 (initialServer []) (some sess0) true).state.is_running
          = false ∧
      Action.hubWait ∉
        (run_server cfg0 (initialServer []) (some sess0) true).trace ∧
      ∀ fp sess2, Action.invoke fp sess2 ∉
        (run_server cfg0 (initialServer []) (some sess0) true).trace) :=
  ⟨rfl, Or.inl rfl,
    C7_empty_paths_abort cfg0 (initialServer []) sess0 rfl (Or.inl rfl)⟩

/-- Claim C10: when `run_server` aborts because `load_files` is enabled
and no handler paths are configured, only the running flag changes at the
abort: the session stays assigned, the hub is not disconnected, the
session is not closed, and the stopped flag stays false. -/
theorem C10_abort_frame (cfg : Cfg) (s : ServerState) (sess : Session)
    (hpaths : s.handler_paths = [])
    (hconn : connectsImmediately cfg sess) :
    (∃ sess2, (run_server cfg s (some sess) true).state =
      { s with
          stopped := false,
          is_running := false,
          session := some sess2 }) ∧
    Action.hubDisconnect ∉ (run_server cfg s (some sess) true).trace ∧
    Action.sessionClose ∉ (run_server cfg s (some sess) true).trace ∧
    (run_server cfg s (some sess) true).state.stopped = false ∧
    (run_server cfg s (some sess) true).state.handler_paths =
      s.handler_paths := by
  rcases hconn with hsync | hpol
  · rw [run_server]
    cases hc : sess.connected
    · refine ⟨⟨{ sess with connected := true }, ?_⟩, ?_⟩ <;>
        simp [hsync, hc, afterConnect_empty, hpaths]
    · refine ⟨⟨sess, ?_⟩, ?_⟩ <;>
        simp [hsync, hc, afterConnect_empty, hpaths]
  · obtain ⟨k, hk⟩ := Option.isSome_iff_exists.mp hpol
    cases hauto : sess.autoConnectThread
    · rw [run_server]
      cases hc : sess.connected
      · refine ⟨⟨{ sess with connected := true }, ?_⟩, ?_⟩ <;>
          simp [hauto, hc, afterConnect_empty, hpaths]
      · refine ⟨⟨sess, ?_⟩, ?_⟩ <;>
          simp [hauto, hc, afterConnect_empty, hpaths]
    · rw [run_server]
      refine ⟨⟨{ sess with connected := true }, ?_⟩, ?_⟩ <;>
        simp [hauto, hk, afterConnect_empty, hpaths]

theorem C10_abort_frame_witness :
    (initialServer []).handler_paths = [] ∧
    ((∃ sess2, (run_server cfg0 (initialServer []) (some sess0) true).state =
        { initialServer [] with
            stopped := false,
            is_running := false,
            session := some sess2 }) ∧
      Action.hubDisconnect ∉
        (run_server cfg0 (initialServer []) (some sess0) true).trace ∧
      Action.sessionClose ∉
        (run_server cfg0 (initialServer []) (some sess0) true).trace ∧
      (run_server cfg0 (initialServer []) (some sess0) true).state.stopped
          = false ∧
      (run_server cfg0 (initialServer [])
          (some sess0) true).state.handler_paths =
        (initialServer []).handler_paths) :=
  ⟨rfl, C10_abort_frame cfg0 (initialServer []) sess0 rfl (Or.inl rfl)⟩

theorem isFunctionType_iff (k : AttrKind) :
    k.isFunctionType = true ↔ k = AttrKind.pyFunction := by
  cases k <;> simp [AttrKind.isFunctionType]

theorem findRegister_some_kind (m : Module) (a : Attr)
    (h : findRegister m = some a) : a.kind = AttrKind.pyFunction := by
  rw [findRegister] at h
  rcases Option.map_eq_some'.mp h with ⟨p, hp, rfl⟩
  have hpred := List.find?_some hp
  rw [Bool.and_eq_true] at hpred
  exact (isFunctionType_iff _).mp hpred.2

theorem findRegister_eq_none (m : Module)
    (h : ∀ p ∈ m.attrs, p.1 = "register" →
      p.2.kind ≠ AttrKind.pyFunction) :
    findRegister m = none := by
  rw [findRegister, Option.map_eq_none', List.find?_eq_none]
  intro p hp hcon
  rw [Bool.and_eq_true, beq_iff_eq] at hcon
  exact h p hp hcon.1 ((isFunctionType_iff _).mp hcon.2)

theorem missing_warning_mem (cfg : Cfg) (sess : Session)
    (paths : List Template) (t : Template) (fp : String) (m : Module)
    (ht : t ∈ paths) (hm : (fp, m) ∈ (loadPath cfg t).1)
    (hnone : findRegister m = none) :
    Action.missingRegisterWarning fp ∈ set_files cfg sess paths := by
  rw [set_files]
  apply List.mem_append_left
  apply List.mem_append_left
  rw [loadActions, List.mem_flatMap]
  refine ⟨t, ht, ?_⟩
  apply List.mem_append_right
  rw [missingActions, List.mem_map]
  exact ⟨(fp, m), List.mem_filter.mpr ⟨hm, by simp [hnone]⟩, rfl⟩

theorem mem_collectEntries (mods : List (String × Module)) (fp : String)
    (a : Attr) :
    (fp, a) ∈ collectEntries mods ↔
      ∃ m, (fp, m) ∈ mods ∧ findRegister m = some a := by
  rw [collectEntries, List.mem_filterMap]
  constructor
  · rintro ⟨p, hp, hf⟩
    rcases Option.map_eq_some'.mp hf with ⟨b, hb, hba⟩
    cases hba
    exact ⟨p.2, hp, hb⟩
  · rintro ⟨m, hm, hf⟩
    exact ⟨(fp, m), hm, by simp [hf]⟩

theorem mem_entryPoints (cfg : Cfg) (paths : List Template) (fp : String)
    (a : Attr) :
    (fp, a) ∈ entryPoints cfg paths ↔
      ∃ t ∈ paths, ∃ m, (fp, m) ∈ (loadPath cfg t).1 ∧
        findRegister m = some a := by
  rw [entryPoints, List.mem_flatMap]
  constructor
  · rintro ⟨t, ht, hmem⟩
    rcases (mem_collectEntries _ _ _).mp hmem with ⟨m, hm, hf⟩
    exact ⟨t, ht, m, hm, hf⟩
  · rintro ⟨t, ht, m, hm, hf⟩
    exact ⟨t, ht, (mem_collectEntries _ _ _).mpr ⟨m, hm, hf⟩⟩

theorem filterMap_crashName_map (l : List String) :
    (l.map Action.loadCrashWarning).filterMap crashName = l := by
  induction l with
  | nil => rfl
  | cons a rest ih => simp [List.filterMap_cons, crashName, ih]

theorem filterMap_crashName_missingActions
    (mods : List (String × Module)) :
    (missingActions mods).filterMap crashName = [] := by
  rw [List.filterMap_eq_nil_iff]
  intro a ha
  rw [missingActions, List.mem_map] at ha
  obtain ⟨p, _, rfl⟩ := ha
  rfl

theorem filterMap_crashName_invokeActions (sess : Session)
    (entries : List (String × Attr)) :
    (invokeActions sess entries).filterMap crashName = [] := by
  rw [List.filterMap_eq_nil_iff]
  intro a ha
  rw [invokeActions, List.mem_flatMap] at ha
  obtain ⟨p, _, hmem⟩ := ha
  rcases List.mem_cons.mp hmem with h | h
  · subst h; rfl
  · cases hr : p.2.raisesOnRegister
    · simp [hr] at h
    · simp [hr] at h
      subst h
      rfl

theorem filterMap_crashName_loadActions (cfg : Cfg) :
    ∀ paths : List Template,
      (loadActions cfg paths).filterMap crashName =
        paths.flatMap (fun t => (loadPath cfg t).2) := by
  intro paths
  induction paths with
  | nil => rfl
  | cons t rest ih =>
    rw [loadActions, List.flatMap_cons, List.filterMap_append,
      List.filterMap_append, filterMap_crashName_map,
      filterMap_crashName_missingActions, List.flatMap_cons]
    rw [loadActions] at ih
    rw [ih]
    simp

theorem set_files_filterMap_crashName (cfg : Cfg) (sess : Session)
    (paths : List Template) :
    (set_files cfg sess paths).filterMap crashName =
      paths.flatMap (fun t => (loadPath cfg t).2) := by
  rw [set_files, List.filterMap_append, List.filterMap_append,
    filterMap_crashName_loadActions, filterMap_crashName_invokeActions]
  cases he : (entryPoints cfg paths).isEmpty <;> simp [crashName]

/-- Claim C8: a successfully loaded module with no usable `register`
function is skipped with a warning, added to no entry-point set, and the
load-failure records of the pass are exactly those reported by the module
loader — the skipped module is not among them. -/
theorem C8_no_register_skipped (cfg : Cfg) (sess : Session)
    (paths : List Template) (t : Template) (fp : String) (m : Module)
    (ht : t ∈ paths) (hm : (fp, m) ∈ (loadPath cfg t).1)
    (hnone : findRegister m = none)
    (hu : ∀ t2 ∈ paths, ∀ p ∈ (loadPath cfg t2).1, p.1 = fp →
      findRegister p.2 = none) :
    Action.missingRegisterWarning fp ∈ set_files cfg sess paths ∧
    fp ∉ (entryPoints cfg paths).map Prod.fst ∧
    (set_files cfg sess paths).filterMap crashName =
      paths.flatMap (fun t2 => (loadPath cfg t2).2) := by
  refine ⟨missing_warning_mem cfg sess paths t fp m ht hm hnone, ?_,
    set_files_filterMap_crashName cfg sess paths⟩
  intro hmem
  rw [List.mem_map] at hmem
  obtain ⟨pa, hpa, hfp⟩ := hmem
  rcases (mem_entryPoints cfg paths pa.1 pa.2).mp hpa with
    ⟨t2, ht2, m2, hm2, hf2⟩
  rw [hfp] at hm2
  have hn2 := hu t2 ht2 (fp, m2) hm2 rfl
  rw [hn2] at hf2
  exact absurd hf2 (by simp)

theorem C8_no_register_skipped_witness :
    tMix ∈ [tMix] ∧
    ("/mix/noreg.py", mNoReg) ∈ (loadPath cfg3 tMix).1 ∧
    findRegister mNoReg = none ∧
    (Action.missingRegisterWarning "/mix/noreg.py" ∈
        set_files cfg3 sess0 [tMix] ∧
      "/mix/noreg.py" ∉ (entryPoints cfg3 [tMix]).map Prod.fst ∧
      (set_files cfg3 sess0 [tMix]).filterMap crashName =
        [tMix].flatMap (fun t2 => (loadPath cfg3 t2).2)) :=
  ⟨by decide, by decide, by decide,
    C8_no_register_skipped cfg3 sess0 [tMix] tMix "/mix/noreg.py" mNoReg
      (by decide) (by decide) (by decide) (by decide)⟩

/-- Claim C9: an attribute named `register` is accepted as the entry
point only when it is a plain function object; a module whose `register`
attributes are callables of any other kind yields no entry point, and
such a loaded module is skipped with the missing-register warning. -/
theorem C9_register_function_type_only :
    (∀ m a, findRegister m = some a → a.kind = AttrKind.pyFunction) ∧
    (∀ m : Module,
      (∀ p ∈ m.attrs, p.1 = "register" →
        p.2.kind.isCallable = true ∧ p.2.kind ≠ AttrKind.pyFunction) →
      findRegister m = none) ∧
    (∀ cfg sess paths t fp m, t ∈ paths → (fp, m) ∈ (loadPath cfg t).1 →
      findRegister m = none →
      Action.missingRegisterWarning fp ∈ set_files cfg sess paths) := by
  refine ⟨findRegister_some_kind, ?_, ?_⟩
  · intro m hm
    exact findRegister_eq_none m (fun p hp h1 => (hm p hp h1).2)
  · intro cfg sess paths t fp m ht hm hnone
    exact missing_warning_mem cfg sess paths t fp m ht hm hnone

theorem C9_register_function_type_only_witness :
    (∀ p ∈ mClassReg.attrs, p.1 = "register" →
      p.2.kind.isCallable = true ∧ p.2.kind ≠ AttrKind.pyFunction) ∧
    findRegister mClassReg = none ∧
    Action.missingRegisterWarning "/cls/c.py" ∈
      set_files cfg2 sess0 [tCls] := by
  refine ⟨by decide, ?_, ?_⟩
  · exact C9_register_function_type_only.2.1 mClassReg (by decide)
  · exact C9_register_function_type_only.2.2 cfg2 sess0 [tCls] tCls
      "/cls/c.py" mClassReg (by decide) (by decide)
      (C9_register_function_type_only.2.1 mClassReg (by decide))

theorem afterConnect_snapshots (cfg : Cfg) (s0 : ServerState)
    (sess : Session) (lf : Bool) (tr : List Action)
    (snaps : List (Phase × ServerState)) :
    (afterConnect cfg s0 sess lf tr snaps).snapshots =
      snaps ++ [(Phase.runningPh, { s0 with session := some sess })] := by
  rw [afterConnect]
  cases lf
  · rfl
  · by_cases hp :
      ({ s0 with session := some sess } : ServerState).handler_paths.isEmpty
        = true
    · simp [hp]
    · simp [hp]

theorem run_server_snapshots (cfg : Cfg) (s : ServerState)
    (sa : Option Session) (lf : Bool) :
    (run_server cfg s sa lf).snapshots =
      [(Phase.connectingPh, { s with stopped := false, is_running := true })]
      ∨
    ∃ sess, (run_server cfg s sa lf).snapshots =
      [(Phase.connectingPh, { s with stopped := false, is_running := true }),
        (Phase.runningPh,
          { s with
              stopped := false
              is_running := true
              session := some sess })] := by
  rw [run_server]
  cases hauto : (sa.getD cfg.newSession).autoConnectThread
  · cases hc : (sa.getD cfg.newSession).connected
    · exact Or.inr ⟨{ sa.getD cfg.newSession with connected := true },
        by simp [hauto, hc, afterConnect_snapshots]⟩
    · exact Or.inr ⟨sa.getD cfg.newSession,
        by simp [hauto, hc, afterConnect_snapshots]⟩
  · cases hpoll : pollHub cfg.hubConn
        (10 * ((sa.getD cfg.newSession).requestTimeout.getD 60)) 0
    · exact Or.inl (by simp [hauto, hpoll])
    · exact Or.inr ⟨{ sa.getD cfg.newSession with connected := true },
        by simp [hauto, hpoll, afterConnect_snapshots]⟩

/-- Claim C5 counterexample: the claimed invariant — session non-null iff
the state is Connecting or Running — fails on a concrete first start: at
the Connecting snapshot of this run the session attribute is still null,
because `run_server` assigns it only after the hub has connected. -/
theorem C5_counterexample :
    ¬ (∀ pr ∈ (run_server cfg0 (initialServer []) (some sess0)
          false).snapshots,
        (pr.2.session ≠ none ↔
          (pr.1 = Phase.connectingPh ∨ pr.1 = Phase.runningPh))) := by
  decide

/-- Claim C5 amended: starting from a state with no session, the session
attribute is still null at every Connecting snapshot, is non-null at
every Running snapshot, and is null again after a successful stop. -/
theorem C5_session_null_until_running (cfg : Cfg) (s : ServerState)
    (sa : Option Session) (lf : Bool) (hs : s.session = none) :
    (∀ st, (Phase.connectingPh, st) ∈ (run_server cfg s sa lf).snapshots →
      st.session = none) ∧
    (∀ st, (Phase.runningPh, st) ∈ (run_server cfg s sa lf).snapshots →
      st.session ≠ none) ∧
    (∀ s2 : ServerState, (stop_session s2).result = .normal →
      (stop_session s2).state.session = none) := by
  refine ⟨?_, ?_, ?_⟩
  · intro st hmem
    rcases run_server_snapshots cfg s sa lf with h | ⟨sess, h⟩ <;>
      rw [h] at hmem <;> simp at hmem
    · rw [hmem]
      exact hs
    · rw [hmem]
      exact hs
  · intro st hmem
    rcases run_server_snapshots cfg s sa lf with h | ⟨sess, h⟩ <;>
      rw [h] at hmem <;> simp at hmem
    rw [hmem]
    simp
  · intro s2 hres
    cases h2 : s2.session
    · rw [stop_session] at hres
      simp [h2] at hres
    · simp [stop_session, h2]

theorem C5_session_null_until_running_witness :
    (initialServer []).session = none ∧
    ((∀ st, (Phase.connectingPh, st) ∈
        (run_server cfg0 (initialServer []) (some sess0) false).snapshots →
        st.session = none) ∧
      (∀ st, (Phase.runningPh, st) ∈
        (run_server cfg0 (initialServer []) (some sess0) false).snapshots →
        st.session ≠ none)) :=
  ⟨rfl,
    (C5_session_null_until_running cfg0 (initialServer [])
      (some sess0) false rfl).1,
    (C5_session_null_until_running cfg0 (initialServer [])
      (some sess0) false rfl).2.1⟩

theorem mem_set_files_cases (cfg : Cfg) (sess : Session)
    (paths : List Template) (a : Action)
    (h : a ∈ set_files cfg sess paths) :
    (∃ fp, a = Action.loadCrashWarning fp) ∨
    (∃ fp, a = Action.missingRegisterWarning fp) ∨
    (∃ j, a = Action.noRegisterWarning j) ∨
    (∃ fp s2, a = Action.invoke fp s2) ∨
    (∃ fp, a = Action.registerFailedWarning fp) := by
  rw [set_files] at h
  rcases List.mem_append.mp h with h | h
  · rcases List.mem_append.mp h with h | h
    · rw [loadActions, List.mem_flatMap] at h
      obtain ⟨t, _, hmem⟩ := h
      rcases List.mem_append.mp hmem with h | h
      · rw [List.mem_map] at h
        obtain ⟨fp, _, rfl⟩ := h
        exact Or.inl ⟨fp, rfl⟩
      · rw [missingActions, List.mem_map] at h
        obtain ⟨p, _, rfl⟩ := h
        exact Or.inr (Or.inl ⟨p.1, rfl⟩)
    · cases he : (entryPoints cfg paths).isEmpty
      · simp [he] at h
      · simp [he] at h
        exact Or.inr (Or.inr (Or.inl ⟨joinedPaths paths, h⟩))
  · rw [invokeActions, List.mem_flatMap] at h
    obtain ⟨p, _, hmem⟩ := h
    rcases List.mem_cons.mp hmem with h | h
    · exact Or.inr (Or.inr (Or.inr (Or.inl ⟨p.1, sess, h⟩)))
    · cases hr : p.2.raisesOnRegister
      · simp [hr] at h
      · simp [hr] at h
        exact Or.inr (Or.inr (Or.inr (Or.inr ⟨p.1, h⟩)))

theorem stopSessionCalled_not_mem_set_files (cfg : Cfg) (sess : Session)
    (paths : List Template) :
    Action.stopSessionCalled ∉ set_files cfg sess paths := by
  intro h
  rcases mem_set_files_cases cfg sess paths _ h with
    ⟨fp, h⟩ | ⟨fp, h⟩ | ⟨j, h⟩ | ⟨fp, s2, h⟩ | ⟨fp, h⟩ <;> simp at h

theorem runServerCalled_not_mem_set_files (cfg : Cfg) (sess : Session)
    (paths : List Template) :
    Action.runServerCalled ∉ set_files cfg sess paths := by
  intro h
  rcases mem_set_files_cases cfg sess paths _ h with
    ⟨fp, h⟩ | ⟨fp, h⟩ | ⟨j, h⟩ | ⟨fp, s2, h⟩ | ⟨fp, h⟩ <;> simp at h

theorem invoke_mem_set_files (cfg : Cfg) (sess : Session)
    (paths : List Template) (fp : String) (s2 : Session)
    (h : Action.invoke fp s2 ∈ set_files cfg sess paths) :
    fp ∈ (entryPoints cfg paths).map Prod.fst := by
  rw [← set_files_filterMap_invokeName cfg sess paths]
  exact List.mem_filterMap.mpr ⟨_, h, rfl⟩

theorem afterConnect_trace_decomp (cfg : Cfg) (s0 : ServerState)
    (sess : Session) (lf : Bool) (tr : List Action)
    (snaps : List (Phase × ServerState)) :
    ∃ rest, (afterConnect cfg s0 sess lf tr snaps).trace = tr ++ rest ∧
      ∀ x ∈ rest, x ∈ set_files cfg sess s0.handler_paths ∨
        x = Action.noPathsWarning ∨ x = Action.registrationFinishedInfo ∨
        x = Action.hubWait := by
  cases lf
  · refine ⟨[Action.hubWait], by simp [afterConnect], ?_⟩
    intro x hx
    simp at hx
    exact Or.inr (Or.inr (Or.inr hx))
  · by_cases hp : s0.handler_paths.isEmpty = true
    · refine ⟨[Action.noPathsWarning], by simp [afterConnect, hp], ?_⟩
      intro x hx
      simp at hx
      exact Or.inr (Or.inl hx)
    · refine ⟨set_files cfg sess s0.handler_paths ++
        [Action.registrationFinishedInfo, Action.hubWait],
        by simp [afterConnect, hp], ?_⟩
      intro x hx
      rcases List.mem_append.mp hx with h | h
      · exact Or.inl h
      · simp at h
        rcases h with h | h
        · exact Or.inr (Or.inr (Or.inl h))
        · exact Or.inr (Or.inr (Or.inr h))

theorem run_server_eq_timeout (cfg : Cfg) (s : ServerState)
    (sa : Option Session) (lf : Bool)
    (hauto : (sa.getD cfg.newSession).autoConnectThread = true)
    (hpoll : pollHub cfg.hubConn
      (10 * ((sa.getD cfg.newSession).requestTimeout.getD 60)) 0 = none) :
    run_server cfg s sa lf =
      { result := .raised (.connectionTimeout
          ((sa.getD cfg.newSession).requestTimeout.getD 60))
        state := { s with stopped := false, is_running := true }
        trace := [.runServerCalled, .waitingInfo]
        snapshots := [(Phase.connectingPh,
          { s with stopped := false, is_running := true })] } := by
  rw [run_server]
  simp [hauto, hpoll]

theorem run_server_eq_auto (cfg : Cfg) (s : ServerState)
    (sa : Option Session) (lf : Bool) (k : Nat)
    (hauto : (sa.getD cfg.newSession).autoConnectThread = true)
    (hpoll : pollHub cfg.hubConn
      (10 * ((sa.getD cfg.newSession).requestTimeout.getD 60)) 0 = some k) :
    run_server cfg s sa lf =
      afterConnect cfg { s with stopped := false, is_running := true }
        { sa.getD cfg.newSession with connected := true } lf
        [.runServerCalled, .waitingInfo]
        [(Phase.connectingPh,
          { s with stopped := false, is_running := true })] := by
  rw [run_server]
  simp [hauto, hpoll]

theorem run_server_eq_sync (cfg : Cfg) (s : ServerState)
    (sa : Option Session) (lf : Bool)
    (hauto : (sa.getD cfg.newSession).autoConnectThread = false)
    (hc : (sa.getD cfg.newSession).connected = false) :
    run_server cfg s sa lf =
      afterConnect cfg { s with stopped := false, is_running := true }
        { sa.getD cfg.newSession with connected := true } lf
        [.runServerCalled, .connectingInfo, .hubConnectCall]
        [(Phase.connectingPh,
          { s with stopped := false, is_running := true })] := by
  rw [run_server]
  simp [hauto, hc]

theorem run_server_eq_conn (cfg : Cfg) (s : ServerState)
    (sa : Option Session) (lf : Bool)
    (hauto : (sa.getD cfg.newSession).autoConnectThread = false)
    (hc : (sa.getD cfg.newSession).connected = true) :
    run_server cfg s sa lf =
      afterConnect cfg { s with stopped := false, is_running := true }
        (sa.getD cfg.newSession) lf
        [.runServerCalled]
        [(Phase.connectingPh,
          { s with stopped := false, is_running := true })] := by
  rw [run_server]
  simp [hauto, hc]

theorem run_server_trace_decomp (cfg : Cfg) (s : ServerState)
    (sa : Option Session) (lf : Bool) :
    ∃ sess tr rest,
      (run_server cfg s sa lf).trace = tr ++ rest ∧
      tr.count Action.runServerCalled = 1 ∧
      tr.count Action.stopSessionCalled = 0 ∧
      (∀ fp s2, Action.invoke fp s2 ∉ tr) ∧
      (∀ x ∈ rest, x ∈ set_files cfg sess s.handler_paths ∨
        x = Action.noPathsWarning ∨ x = Action.registrationFinishedInfo ∨
        x = Action.hubWait) := by
  cases hauto : (sa.getD cfg.newSession).autoConnectThread
  · cases hc : (sa.getD cfg.newSession).connected
    · obtain ⟨rest, htr, hrest⟩ := afterConnect_trace_decomp cfg
        { s with stopped := false, is_running := true }
        { sa.getD cfg.newSession with connected := true } lf
        [.runServerCalled, .connectingInfo, .hubConnectCall]
        [(Phase.connectingPh, { s with stopped := false, is_running := true })]
      refine ⟨{ sa.getD cfg.newSession with connected := true },
        [.runServerCalled, .connectingInfo, .hubConnectCall], rest,
        ?_, by decide, by decide, by intro fp s2; simp, hrest⟩
      rw [run_server_eq_sync cfg s sa lf hauto hc]
      exact htr
    · obtain ⟨rest, htr, hrest⟩ := afterConnect_trace_decomp cfg
        { s with stopped := false, is_running := true }
        (sa.getD cfg.newSession) lf
        [.runServerCalled]
        [(Phase.connectingPh, { s with stopped := false, is_running := true })]
      refine ⟨sa.getD cfg.newSession, [.runServerCalled], rest,
        ?_, by decide, by decide, by intro fp s2; simp, hrest⟩
      rw [run_server_eq_conn cfg s sa lf hauto hc]
      exact htr
  · cases hpoll : pollHub cfg.hubConn
        (10 * ((sa.getD cfg.newSession).requestTimeout.getD 60)) 0
    · refine ⟨sa.getD cfg.newSession,
        [.runServerCalled, .waitingInfo], [],
        ?_, by decide, by decide, by intro fp s2; simp, by intro x hx; simp at hx⟩
      rw [run_server_eq_timeout cfg s sa lf hauto hpoll]
      simp
    · obtain ⟨rest, htr, hrest⟩ := afterConnect_trace_decomp cfg
        { s with stopped := false, is_running := true }
        { sa.getD cfg.newSession with connected := true } lf
        [.runServerCalled, .waitingInfo]
        [(Phase.connectingPh, { s with stopped := false, is_running := true })]
      refine ⟨{ sa.getD cfg.newSession with connected := true },
        [.runServerCalled, .waitingInfo], rest,
        ?_, by decide, by decide, by intro fp s2; simp, hrest⟩
      rw [run_server_eq_auto cfg s sa lf _ hauto hpoll]
      exact htr

theorem run_server_counts (cfg : Cfg) (s : ServerState)
    (sa : Option Session) (lf : Bool) :
    (run_server cfg s sa lf).trace.count Action.runServerCalled = 1 ∧
    (run_server cfg s sa lf).trace.count Action.stopSessionCalled = 0 := by
  obtain ⟨sess, tr, rest, heq, h1, h0, _, hrest⟩ :=
    run_server_trace_decomp cfg s sa lf
  have hrun0 : rest.count Action.runServerCalled = 0 := by
    rw [List.count_eq_zero]
    intro hmem
    rcases hrest _ hmem with h | h | h | h
    · exact runServerCalled_not_mem_set_files cfg sess s.handler_paths h
    · simp at h
    · simp at h
    · simp at h
  have hstop0 : rest.count Action.stopSessionCalled = 0 := by
    rw [List.count_eq_zero]
    intro hmem
    rcases hrest _ hmem with h | h | h | h
    · exact stopSessionCalled_not_mem_set_files cfg sess s.handler_paths h
    · simp at h
    · simp at h
    · simp at h
  constructor
  · rw [heq, List.count_append, h1, hrun0]
  · rw [heq, List.count_append, h0, hstop0]

theorem run_server_invoke_mem (cfg : Cfg) (s : ServerState)
    (sa : Option Session) (lf : Bool) (fp : String) (s2 : Session)
    (h : Action.invoke fp s2 ∈ (run_server cfg s sa lf).trace) :
    fp ∈ (entryPoints cfg s.handler_paths).map Prod.fst := by
  obtain ⟨sess, tr, rest, heq, _, _, hinv, hrest⟩ :=
    run_server_trace_decomp cfg s sa lf
  rw [heq, List.mem_append] at h
  rcases h with h | h
  · exact absurd h (hinv fp s2)
  · rcases hrest _ h with hx | hx | hx | hx
    · exact invoke_mem_set_files cfg sess s.handler_paths fp s2 hx
    · simp at hx
    · simp at hx
    · simp at hx

theorem afterConnect_state (cfg : Cfg) (s0 : ServerState) (sess : Session)
    (lf : Bool) (tr : List Action) (snaps : List (Phase × ServerState)) :
    (afterConnect cfg s0 sess lf tr snaps).state =
      { s0 with session := some sess, is_running := false } := by
  cases lf
  · simp [afterConnect]
  · by_cases hp : s0.handler_paths.isEmpty = true
    · simp [afterConnect, hp]
    · simp [afterConnect, hp]

theorem run_server_state_decomp (cfg : Cfg) (s : ServerState)
    (sa : Option Session) (lf : Bool) :
    (run_server cfg s sa lf).state =
      { s with stopped := false, is_running := true } ∨
    ∃ sess, (run_server cfg s sa lf).state =
      { s with
          stopped := false
          is_running := false
          session := some sess } := by
  cases hauto : (sa.getD cfg.newSession).autoConnectThread
  · cases hc : (sa.getD cfg.newSession).connected
    · rw [run_server_eq_sync cfg s sa lf hauto hc, afterConnect_state]
      exact Or.inr ⟨{ sa.getD cfg.newSession with connected := true }, rfl⟩
    · rw [run_server_eq_conn cfg s sa lf hauto hc, afterConnect_state]
      exact Or.inr ⟨sa.getD cfg.newSession, rfl⟩
  · cases hpoll : pollHub cfg.hubConn
        (10 * ((sa.getD cfg.newSession).requestTimeout.getD 60)) 0
    · rw [run_server_eq_timeout cfg s sa lf hauto hpoll]
      exact Or.inl rfl
    · rw [run_server_eq_auto cfg s sa lf _ hauto hpoll, afterConnect_state]
      exact Or.inr ⟨{ sa.getD cfg.newSession with connected := true }, rfl⟩

theorem run_server_preserves_paths (cfg : Cfg) (s : ServerState)
    (sa : Option Session) (lf : Bool) :
    (run_server cfg s sa lf).state.handler_paths = s.handler_paths := by
  rcases run_server_state_decomp cfg s sa lf with h | ⟨sess, h⟩ <;> rw [h]

theorem stop_session_some (s : ServerState) (sess : Session)
    (h : s.session = some sess) :
    stop_session s =
      { result := .normal
        state := { s with stopped := true, session := none }
        trace := Action.stopSessionCalled ::
          ((if sess.connected then [Action.hubDisconnect] else []) ++
            [Action.sessionClose])
        snapshots := [] } := by
  rw [stop_session]
  simp [h]

theorem set_handler_paths_running (cfg : Cfg) (s : ServerState)
    (ps : List Template) (sess : Session) (hrun : s.is_running = true)
    (hsess : s.session = some sess) :
    set_handler_paths cfg s ps =
      { result := (run_server cfg
          { s with
              handler_paths := ps
              stopped := true
              session := none } none true).result
        state := (run_server cfg
          { s with
              handler_paths := ps
              stopped := true
              session := none } none true).state
        trace := (Action.stopSessionCalled ::
          ((if sess.connected then [Action.hubDisconnect] else []) ++
            [Action.sessionClose])) ++
          (run_server cfg
            { s with
                handler_paths := ps
                stopped := true
                session := none } none true).trace
        snapshots := (run_server cfg
          { s with
              handler_paths := ps
              stopped := true
              session := none } none true).snapshots } := by
  obtain ⟨st, ir, hpth, se⟩ := s
  obtain rfl : ir = true := hrun
  obtain rfl : se = some sess := hsess
  simp [set_handler_paths, stop_session]

theorem set_handler_paths_connecting (cfg : Cfg) (s : ServerState)
    (ps : List Template) (hrun : s.is_running = false)
    (hstop : s.stopped = false) :
    set_handler_paths cfg s ps =
      run_server cfg { s with handler_paths := ps } none true := by
  rw [set_handler_paths]
  simp [hrun, hstop]

theorem set_handler_paths_stopped_eq (cfg : Cfg) (s : ServerState)
    (ps : List Template) (hrun : s.is_running = false)
    (hstop : s.stopped = true) :
    set_handler_paths cfg s ps =
      { result := .normal, state := { s with handler_paths := ps },
        trace := [], snapshots := [] } := by
  rw [set_handler_paths]
  simp [hrun, hstop]

/-- Claim C3: `set_handler_paths` stores the new paths; while the running
flag is set it performs exactly one stop followed by exactly one fresh
`run_server`, whose handler registrations can only come from the new
paths; when started but not running it restarts without a stop; when
stopped it only stores the paths for the next start. -/
theorem C3_set_handler_paths (cfg : Cfg) (s : ServerState)
    (ps : List Template) :
    (∀ sess, s.is_running = true → s.session = some sess →
      (set_handler_paths cfg s ps).trace =
        (Action.stopSessionCalled ::
          ((if sess.connected then [Action.hubDisconnect] else []) ++
            [Action.sessionClose])) ++
        (run_server cfg
          { s with
              handler_paths := ps
              stopped := true
              session := none } none true).trace ∧
      (set_handler_paths cfg s ps).trace.count Action.stopSessionCalled = 1 ∧
      (set_handler_paths cfg s ps).trace.count Action.runServerCalled = 1 ∧
      (∀ fp s2, Action.invoke fp s2 ∈ (set_handler_paths cfg s ps).trace →
        fp ∈ (entryPoints cfg ps).map Prod.fst) ∧
      (set_handler_paths cfg s ps).state.handler_paths = ps) ∧
    (s.is_running = false → s.stopped = false →
      set_handler_paths cfg s ps =
        run_server cfg { s with handler_paths := ps } none true ∧
      (set_handler_paths cfg s ps).trace.count Action.stopSessionCalled = 0 ∧
      (set_handler_paths cfg s ps).trace.count Action.runServerCalled = 1 ∧
      (∀ fp s2, Action.invoke fp s2 ∈ (set_handler_paths cfg s ps).trace →
        fp ∈ (entryPoints cfg ps).map Prod.fst) ∧
      (set_handler_paths cfg s ps).state.handler_paths = ps) ∧
    (s.is_running = false → s.stopped = true →
      set_handler_paths cfg s ps =
        { result := .normal, state := { s with handler_paths := ps },
          trace := [], snapshots := [] }) := by
  refine ⟨?_, ?_, ?_⟩
  · intro sess hrun hsess
    obtain ⟨hc1, hc0⟩ := run_server_counts cfg
      { s with handler_paths := ps, stopped := true, session := none }
      none true
    rw [set_handler_paths_running cfg s ps sess hrun hsess]
    refine ⟨rfl, ?_, ?_, ?_, ?_⟩
    · cases hcon : sess.connected <;>
        simp [hcon, List.count_append, List.count_cons, hc0]
    · cases hcon : sess.connected <;>
        simp [hcon, List.count_append, List.count_cons, hc1]
    · intro fp s2 h
      rcases List.mem_append.mp h with h | h
      · cases hcon : sess.connected <;> simp [hcon] at h
      · exact run_server_invoke_mem cfg _ none true fp s2 h
    · exact run_server_preserves_paths cfg
        { s with handler_paths := ps, stopped := true, session := none }
        none true
  · intro hrun hstop
    obtain ⟨hc1, hc0⟩ := run_server_counts cfg
      { s with handler_paths := ps } none true
    rw [set_handler_paths_connecting cfg s ps hrun hstop]
    refine ⟨rfl, hc0, hc1, ?_, ?_⟩
    · intro fp s2 h
      exact run_server_invoke_mem cfg _ none true fp s2 h
    · exact run_server_preserves_paths cfg
        { s with handler_paths := ps } none true
  · intro hrun hstop
    exact set_handler_paths_stopped_eq cfg s ps hrun hstop

theorem C3_set_handler_paths_witness :
    srvRunning.is_running = true ∧ srvRunning.session = some sess0 ∧
    ((set_handler_paths cfg1 srvRunning [tPlugins]).trace.count
        Action.stopSessionCalled = 1 ∧
      (set_handler_paths cfg1 srvRunning [tPlugins]).trace.count
        Action.runServerCalled = 1 ∧
      (set_handler_paths cfg1 srvRunning [tPlugins]).state.handler_paths =
        [tPlugins]) ∧
    srvMid.is_running = false ∧ srvMid.stopped = false ∧
    ((set_handler_paths cfg1 srvMid [tPlugins]).trace.count
        Action.stopSessionCalled = 0 ∧
      (set_handler_paths cfg1 srvMid [tPlugins]).trace.count
        Action.runServerCalled = 1) ∧
    srvStopped.is_running = false ∧ srvStopped.stopped = true ∧
    set_handler_paths cfg1 srvStopped [tPlugins] =
      { result := .normal,
        state := { srvStopped with handler_paths := [tPlugins] },
        trace := [], snapshots := [] } := by
  refine ⟨rfl, rfl, ?_, rfl, rfl, ?_, rfl, rfl, ?_⟩
  · obtain ⟨-, h1, h2, -, h3⟩ :=
      (C3_set_handler_paths cfg1 srvRunning [tPlugins]).1 sess0 rfl rfl
    exact ⟨h1, h2, h3⟩
  · obtain ⟨-, h1, h2, -, -⟩ :=
      ((C3_set_handler_paths cfg1 srvMid [tPlugins]).2.1) rfl rfl
    exact ⟨h1, h2⟩
  · exact ((C3_set_handler_paths cfg1 srvStopped [tPlugins]).2.2) rfl rfl

end FtrackProc
